import Mathlib

/-!
Verification development for the Krueger Secomat Home Assistant integration.
The definitions below are a shallow embedding of the Python sources under
custom_components/secomat (api.py, const.py, select.py, coordinator.py).
Network interaction is modelled by an explicit event describing how the one
HTTP exchange of a call ends: a decoded response, a transport-level client
error, or a timeout.
-/

/-- A decoded JSON value, as produced by response.json in api.py. Objects are
association lists of string keys to values. -/
inductive JsonVal where
  | null
  | bool (b : Bool)
  | num (n : Int)
  | str (s : String)
  | arr (elems : List JsonVal)
  | obj (fields : List (String × JsonVal))

/-- Embeds the Python dict.get lookup on a decoded JSON object: the value at
the first matching key, or none. -/
def getField (fields : List (String × JsonVal)) (key : String) : Option JsonVal :=
  (fields.find? (fun kv => kv.fst == key)).map Prod.snd

/-- An HTTP response as seen by the client after JSON decoding: the status
code and the decoded body. -/
structure HttpResponse where
  status : Nat
  body : JsonVal

/-- How a single HTTP call in api.py ends: with a decoded response, with an
aiohttp.ClientError carrying a cause, or with an asyncio.TimeoutError. -/
inductive FetchEvent where
  | response (r : HttpResponse)
  | clientError (cause : String)
  | timeout

/-- The Python exceptions that can escape the client calls: the SecomatAPIError
class raised by api.py (the RemoteError of the spec), and the builtin
AttributeError and TypeError that no handler in api.py catches. -/
inductive PyExc where
  | secomatAPIError (msg : String)
  | attributeError (msg : String)
  | typeError (msg : String)

/-- Embeds the envelope test of get_state in api.py, line 58: the Python
expression data.get("type") == "STATE", true exactly when the field holds the
JSON string STATE. -/
def isStateEnvelope (fields : List (String × JsonVal)) : Bool :=
  match getField fields "type" with
  | some (JsonVal.str s) => s == "STATE"
  | _ => false

/-- Embeds SecomatAPI.get_state in api.py, lines 46 to 65: non-200 status
raises the API error with the status code in the message; on 200 a STATE
envelope yields its payload (defaulting to the empty mapping), any other
mapping is returned unchanged, and a non-mapping body makes the attribute
lookup data.get fail with AttributeError, which no handler catches; a
transport failure or a timeout raises the API error with the corresponding
message. -/
def get_state (ev : FetchEvent) : Except PyExc JsonVal :=
  match ev with
  | .response r =>
    if r.status ≠ 200 then
      .error (.secomatAPIError ("API returned " ++ toString r.status))
    else
      match r.body with
      | .obj fields =>
        if isStateEnvelope fields then
          .ok ((getField fields "payload").getD (.obj []))
        else
          .ok (.obj fields)
      | _ => .error (.attributeError "object has no attribute get")
  | .clientError cause => .error (.secomatAPIError ("Connection error: " ++ cause))
  | .timeout => .error (.secomatAPIError "Request timeout")

/-- Embeds the POST body built by send_command in api.py, line 69: the mapping
with key command holding the command name and key args holding the argument
mapping, where a missing argument mapping defaults to the empty one. -/
def post_payload (command : String) (args : Option (List (String × JsonVal))) : JsonVal :=
  .obj [("command", .str command), ("args", .obj (args.getD []))]

/-- Embeds SecomatAPI.send_command in api.py, lines 67 to 86. The net argument
gives the outcome of POSTing the built body. Non-200 status, transport failure
and timeout raise the API error exactly as get_state does; on 200 the call
returns the Python comparison data.get("status") == "OK", and a non-mapping
body makes the attribute lookup fail with AttributeError. -/
def send_command (command : String) (args : Option (List (String × JsonVal)))
    (net : JsonVal → FetchEvent) : Except PyExc Bool :=
  match net (post_payload command args) with
  | .response r =>
    if r.status ≠ 200 then
      .error (.secomatAPIError ("API returned " ++ toString r.status))
    else
      match r.body with
      | .obj fields =>
        .ok (match getField fields "status" with
             | some (JsonVal.str s) => s == "OK"
             | _ => false)
      | _ => .error (.attributeError "object has no attribute get")
  | .clientError cause => .error (.secomatAPIError ("Connection error: " ++ cause))
  | .timeout => .error (.secomatAPIError "Request timeout")

/-- Embeds SecomatAPI.turn_off in api.py, line 88: delegates to send_command
with command OFF and no arguments. -/
def turn_off (net : JsonVal → FetchEvent) : Except PyExc Bool :=
  send_command "OFF" none net

/-- Embeds SecomatAPI.start_laundry_drying in api.py: delegates to
send_command with command PRG_WASH_AUTO and no arguments. -/
def start_laundry_drying (net : JsonVal → FetchEvent) : Except PyExc Bool :=
  send_command "PRG_WASH_AUTO" none net

/-- Embeds SecomatAPI.start_room_drying in api.py: delegates to send_command
with command PRG_ROOM_ON and no arguments. -/
def start_room_drying (net : JsonVal → FetchEvent) : Except PyExc Bool :=
  send_command "PRG_ROOM_ON" none net

/-- Embeds SecomatAPI.stop_room_drying in api.py: delegates to send_command
with command PRG_ROOM_OFF and no arguments. -/
def stop_room_drying (net : JsonVal → FetchEvent) : Except PyExc Bool :=
  send_command "PRG_ROOM_OFF" none net

/-- Embeds HUMIDITY_LEVELS from const.py: the mapping from level codes to
option labels. -/
def HUMIDITY_LEVELS : List (Int × String) :=
  [(0, "wet"), (1, "dry"), (2, "extra_dry")]

/-- Embeds the inverted mapping built in async_select_option in select.py,
line 64: option label to level code. -/
def level_map : List (String × Int) :=
  HUMIDITY_LEVELS.map (fun kv => (kv.snd, kv.fst))

/-- Embeds the command selection of SecomatTargetHumiditySelect.async_select_option
in select.py, lines 62 to 73: look the option up in the inverted mapping and,
when a level code exists, pass command SET_TARGET_HUMIDITY with argument
mapping level to code to send_command; an unknown option sends nothing. -/
def select_option_command (option : String) :
    Option (String × Option (List (String × JsonVal))) :=
  match (level_map.find? (fun kv => kv.fst == option)).map Prod.snd with
  | some level => some ("SET_TARGET_HUMIDITY", some [("level", JsonVal.num level)])
  | none => none

/-- Embeds the Python membership test key in value used by validate_connection
in api.py, line 108: defined for mappings (key lookup), lists (element
equality) and strings (substring test); raises TypeError otherwise. -/
def pyContains (key : String) (v : JsonVal) : Except PyExc Bool :=
  match v with
  | .obj fields => .ok (fields.any (fun kv => kv.fst == key))
  | .arr elems =>
    .ok (elems.any (fun e => match e with
      | JsonVal.str s => s == key
      | _ => false))
  | .str s => .ok (key.isEmpty || (s.splitOn key).length > 1)
  | _ => .error (.typeError "argument is not iterable")

/-- Embeds SecomatAPI.validate_connection in api.py, lines 104 to 110: calls
get_state and tests membership of serial_number in the result; a
SecomatAPIError is downgraded to false, while any other exception
propagates. -/
def validate_connection (ev : FetchEvent) : Except PyExc Bool :=
  match get_state ev with
  | .ok state => pyContains "serial_number" state
  | .error (.secomatAPIError _) => .ok false
  | .error e => .error e

/-- The failure modes of a coordinator refresh: the UpdateFailed raised by
the coordinator on a SecomatAPIError, or an exception it does not catch. -/
inductive UpdateError where
  | updateFailed (msg : String)
  | uncaught (e : PyExc)

/-- Embeds SecomatCoordinator._async_update_data in coordinator.py, lines 30
to 35: returns the state fetched by get_state, turning a SecomatAPIError into
UpdateFailed with a prefixed message. -/
def async_update_data (ev : FetchEvent) : Except UpdateError JsonVal :=
  match get_state ev with
  | .ok data => .ok data
  | .error (.secomatAPIError msg) =>
    .error (.updateFailed ("Error fetching Secomat data: " ++ msg))
  | .error e => .error (.uncaught e)

/-- The coordinator state: the cached snapshot, absent before the first
successful refresh. -/
structure CoordinatorState where
  data : Option JsonVal

/-- Modelled from the spec: the Home Assistant DataUpdateCoordinator refresh
machinery is framework code not under src/. A refresh attempt runs
the update method; on success the returned mapping replaces the cached
snapshot wholesale and the refresh reports success; on failure the failure is
recorded (reported false here) and the previously cached snapshot is
retained. -/
def refresh_now (st : CoordinatorState) (ev : FetchEvent) : CoordinatorState × Bool :=
  match async_update_data ev with
  | .ok data => (⟨some data⟩, true)
  | .error _ => (st, false)

/-- Modelled from the spec: passive readers obtain the latest cached snapshot
from the coordinator without performing any network call. -/
def current_snapshot (st : CoordinatorState) : Option JsonVal := st.data

/-- A connection resource (aiohttp.ClientSession) with its closed flag. -/
structure Session where
  closed : Bool

/-- The session-owning state of a SecomatAPI instance: the held session, if
any, and whether this client owns it. -/
structure APIState where
  session : Option Session
  own_session : Bool

/-- Embeds SecomatAPI initialisation in api.py, lines 22 to 26: the session is
the externally supplied one, and the client owns it exactly when none was
supplied. -/
def api_init (session : Option Session) : APIState :=
  ⟨session, session.isNone⟩

/-- Embeds SecomatAPI._ensure_session in api.py, lines 28 to 33: when no
session is held or the held one is closed, a fresh open session is created
and owned; otherwise the state is unchanged. -/
def ensure_session (st : APIState) : APIState :=
  match st.session with
  | some s => if s.closed then ⟨some ⟨false⟩, true⟩ else st
  | none => ⟨some ⟨false⟩, true⟩

/-- Embeds SecomatAPI.close in api.py, lines 112 to 115: the held session is
closed only when it exists, is owned, and is not already closed. The boolean
records whether session.close was actually invoked. -/
def api_close (st : APIState) : APIState × Bool :=
  match st.session with
  | some s =>
    if st.own_session && !s.closed then
      (⟨some ⟨true⟩, st.own_session⟩, true)
    else
      (st, false)
  | none => (st, false)

lemma isStateEnvelope_iff (fields : List (String × JsonVal)) :
    isStateEnvelope fields = true ↔
      getField fields "type" = some (JsonVal.str "STATE") := by
  unfold isStateEnvelope
  cases h : getField fields "type" with
  | none => simp
  | some v =>
    cases v <;> simp_all [beq_iff_eq]

lemma isStateEnvelope_eq_false (fields : List (String × JsonVal))
    (h : getField fields "type" ≠ some (JsonVal.str "STATE")) :
    isStateEnvelope fields = false := by
  rcases hb : isStateEnvelope fields with _ | _
  · rfl
  · exact absurd ((isStateEnvelope_iff fields).1 hb) h

/-- C1: on a 200 GET response whose decoded body is a mapping, get_state
returns exactly the payload when the body carries the STATE envelope, and
returns the decoded body itself unchanged when the type field is absent or
differs from the string STATE. -/
theorem fetch_state_envelope_and_passthrough (r : HttpResponse)
    (fields : List (String × JsonVal))
    (hs : r.status = 200) (hb : r.body = JsonVal.obj fields) :
    (∀ p, getField fields "type" = some (JsonVal.str "STATE") →
        getField fields "payload" = some p →
        get_state (FetchEvent.response r) = Except.ok p) ∧
    (getField fields "type" ≠ some (JsonVal.str "STATE") →
        get_state (FetchEvent.response r) = Except.ok (JsonVal.obj fields)) := by
  constructor
  · intro p hty hp
    simp [get_state, hs, hb, (isStateEnvelope_iff fields).2 hty, hp]
  · intro hty
    simp [get_state, hs, hb, isStateEnvelope_eq_false fields hty]

/-- Closed instance of C1: a concrete enveloped response yields its payload,
and a concrete non-enveloped response is passed through unchanged. -/
theorem fetch_state_envelope_witness :
    get_state (FetchEvent.response ⟨200, JsonVal.obj
        [("type", JsonVal.str "STATE"),
         ("payload", JsonVal.obj [("serial_number", JsonVal.str "SN1")])]⟩) =
      Except.ok (JsonVal.obj [("serial_number", JsonVal.str "SN1")]) ∧
    get_state (FetchEvent.response ⟨200, JsonVal.obj
        [("serial_number", JsonVal.str "SN2")]⟩) =
      Except.ok (JsonVal.obj [("serial_number", JsonVal.str "SN2")]) :=
  ⟨(fetch_state_envelope_and_passthrough ⟨200, JsonVal.obj
        [("type", JsonVal.str "STATE"),
         ("payload", JsonVal.obj [("serial_number", JsonVal.str "SN1")])]⟩
      [("type", JsonVal.str "STATE"),
       ("payload", JsonVal.obj [("serial_number", JsonVal.str "SN1")])]
      rfl rfl).1 _ rfl rfl,
   (fetch_state_envelope_and_passthrough ⟨200, JsonVal.obj
        [("serial_number", JsonVal.str "SN2")]⟩
      [("serial_number", JsonVal.str "SN2")]
      rfl rfl).2 (by simp [getField])⟩

/-- C2: on a 200 POST response whose decoded body is a mapping, send_command
returns true exactly when the status field holds the string OK, and returns
false (raising nothing) for any other value of the field, including when the
field is absent. -/
theorem send_command_status_ok (command : String)
    (args : Option (List (String × JsonVal))) (net : JsonVal → FetchEvent)
    (r : HttpResponse) (fields : List (String × JsonVal))
    (hev : net (post_payload command args) = FetchEvent.response r)
    (hs : r.status = 200) (hb : r.body = JsonVal.obj fields) :
    (getField fields "status" = some (JsonVal.str "OK") →
        send_command command args net = Except.ok true) ∧
    (getField fields "status" ≠ some (JsonVal.str "OK") →
        send_command command args net = Except.ok false) := by
  constructor
  · intro hst
    simp [send_command, hev, hs, hb, hst]
  · intro hst
    simp only [send_command, hev, hs, hb]
    norm_num
    cases h : getField fields "status" with
    | none => rfl
    | some v =>
      cases v <;> simp_all [beq_eq_false_iff_ne]

/-- Closed instance of C2: a 200 body with status OK yields true and a 200
body with status REJECTED yields false. -/
theorem send_command_status_ok_witness :
    send_command "OFF" none
        (fun _ => FetchEvent.response ⟨200,
          JsonVal.obj [("status", JsonVal.str "OK")]⟩) = Except.ok true ∧
    send_command "OFF" none
        (fun _ => FetchEvent.response ⟨200,
          JsonVal.obj [("status", JsonVal.str "REJECTED")]⟩) = Except.ok false :=
  ⟨(send_command_status_ok "OFF" none _ ⟨200,
        JsonVal.obj [("status", JsonVal.str "OK")]⟩
      [("status", JsonVal.str "OK")] rfl rfl rfl).1 rfl,
   (send_command_status_ok "OFF" none _ ⟨200,
        JsonVal.obj [("status", JsonVal.str "REJECTED")]⟩
      [("status", JsonVal.str "REJECTED")] rfl rfl rfl).2
     (by simp [getField])⟩

/-- C5: any response with status other than 200 makes get_state and
send_command alike fail with the API error whose message carries the status
code, whatever the body holds. -/
theorem non200_hard_failure (r : HttpResponse) (h : r.status ≠ 200) :
    get_state (FetchEvent.response r) =
      Except.error (PyExc.secomatAPIError ("API returned " ++ toString r.status)) ∧
    (∀ command args net, net (post_payload command args) = FetchEvent.response r →
      send_command command args net =
        Except.error (PyExc.secomatAPIError ("API returned " ++ toString r.status))) := by
  refine ⟨by simp [get_state, h], ?_⟩
  intro command args net hev
  simp [send_command, hev, h]

/-- Closed instance of C5: a 503 response makes both calls fail with the
message carrying 503, even though the body holds status OK. -/
theorem non200_hard_failure_witness :
    get_state (FetchEvent.response ⟨503,
        JsonVal.obj [("status", JsonVal.str "OK")]⟩) =
      Except.error (PyExc.secomatAPIError "API returned 503") ∧
    send_command "OFF" none (fun _ => FetchEvent.response ⟨503,
        JsonVal.obj [("status", JsonVal.str "OK")]⟩) =
      Except.error (PyExc.secomatAPIError "API returned 503") :=
  ⟨(non200_hard_failure ⟨503, JsonVal.obj [("status", JsonVal.str "OK")]⟩
      (by decide)).1,
   (non200_hard_failure ⟨503, JsonVal.obj [("status", JsonVal.str "OK")]⟩
      (by decide)).2 "OFF" none _ rfl⟩

/-- C9: a 200 GET response whose mapping body carries type STATE but no
payload key makes get_state return the empty mapping, not the decoded
body. -/
theorem fetch_state_missing_payload (r : HttpResponse)
    (fields : List (String × JsonVal))
    (hs : r.status = 200) (hb : r.body = JsonVal.obj fields)
    (hty : getField fields "type" = some (JsonVal.str "STATE"))
    (hp : getField fields "payload" = none) :
    get_state (FetchEvent.response r) = Except.ok (JsonVal.obj []) := by
  simp [get_state, hs, hb, (isStateEnvelope_iff fields).2 hty, hp]

/-- Closed instance of C9: a STATE envelope without payload yields the empty
mapping. -/
theorem fetch_state_missing_payload_witness :
    get_state (FetchEvent.response ⟨200,
        JsonVal.obj [("type", JsonVal.str "STATE")]⟩) =
      Except.ok (JsonVal.obj []) :=
  fetch_state_missing_payload ⟨200, JsonVal.obj [("type", JsonVal.str "STATE")]⟩
    [("type", JsonVal.str "STATE")] rfl rfl rfl (by simp [getField])

/-- C3: when the fetch succeeds the coordinator stores the new mapping and
serves it as the current snapshot; when the fetch fails with the API error
while a prior snapshot exists, the refresh reports failure and the prior
snapshot is still served unchanged. -/
theorem coordinator_refresh_snapshot (st : CoordinatorState) (ev : FetchEvent) :
    (∀ data, get_state ev = Except.ok data →
        refresh_now st ev = (⟨some data⟩, true) ∧
        current_snapshot (refresh_now st ev).fst = some data) ∧
    (∀ msg d, get_state ev = Except.error (PyExc.secomatAPIError msg) →
        st.data = some d →
        (refresh_now st ev).snd = false ∧
        current_snapshot (refresh_now st ev).fst = some d) := by
  constructor
  · intro data hok
    simp [refresh_now, async_update_data, hok, current_snapshot]
  · intro msg d herr hd
    simp [refresh_now, async_update_data, herr, current_snapshot, hd]

/-- Closed instance of C3: a successful fetch replaces the snapshot, and a
timed-out fetch leaves the prior snapshot served while reporting failure. -/
theorem coordinator_refresh_snapshot_witness :
    refresh_now ⟨none⟩ (FetchEvent.response ⟨200,
        JsonVal.obj [("serial_number", JsonVal.str "SN1")]⟩) =
      (⟨some (JsonVal.obj [("serial_number", JsonVal.str "SN1")])⟩, true) ∧
    (refresh_now ⟨some (JsonVal.obj [("serial_number", JsonVal.str "SN1")])⟩
        FetchEvent.timeout).snd = false ∧
    current_snapshot (refresh_now
        ⟨some (JsonVal.obj [("serial_number", JsonVal.str "SN1")])⟩
        FetchEvent.timeout).fst =
      some (JsonVal.obj [("serial_number", JsonVal.str "SN1")]) :=
  ⟨((coordinator_refresh_snapshot ⟨none⟩ (FetchEvent.response ⟨200,
        JsonVal.obj [("serial_number", JsonVal.str "SN1")]⟩)).1
      (JsonVal.obj [("serial_number", JsonVal.str "SN1")])
      (by simp [get_state, isStateEnvelope, getField])).1,
   ((coordinator_refresh_snapshot
        ⟨some (JsonVal.obj [("serial_number", JsonVal.str "SN1")])⟩
        FetchEvent.timeout).2 "Request timeout"
      (JsonVal.obj [("serial_number", JsonVal.str "SN1")]) rfl rfl).1,
   ((coordinator_refresh_snapshot
        ⟨some (JsonVal.obj [("serial_number", JsonVal.str "SN1")])⟩
        FetchEvent.timeout).2 "Request timeout"
      (JsonVal.obj [("serial_number", JsonVal.str "SN1")]) rfl rfl).2⟩

/-- C4: when the fetch succeeds with a mapping, validate_connection returns
exactly whether the mapping contains the key serial_number; when the fetch
fails with the API error, it returns false and propagates nothing. -/
theorem validate_connection_serial_probe (ev : FetchEvent) :
    (∀ fields, get_state ev = Except.ok (JsonVal.obj fields) →
        validate_connection ev =
          Except.ok (fields.any (fun kv => kv.fst == "serial_number"))) ∧
    (∀ msg, get_state ev = Except.error (PyExc.secomatAPIError msg) →
        validate_connection ev = Except.ok false) := by
  constructor
  · intro fields hok
    simp [validate_connection, hok, pyContains]
  · intro msg herr
    simp [validate_connection, herr]

/-- Closed instance of C4: a mapping with serial_number yields true, a mapping
without it yields false, and a 401 rejection yields false rather than an
error. -/
theorem validate_connection_serial_probe_witness :
    validate_connection (FetchEvent.response ⟨200,
        JsonVal.obj [("serial_number", JsonVal.str "SN1")]⟩) = Except.ok true ∧
    validate_connection (FetchEvent.response ⟨200,
        JsonVal.obj [("humidity", JsonVal.num 55)]⟩) = Except.ok false ∧
    validate_connection (FetchEvent.response ⟨401, JsonVal.null⟩) =
      Except.ok false :=
  ⟨(validate_connection_serial_probe (FetchEvent.response ⟨200,
        JsonVal.obj [("serial_number", JsonVal.str "SN1")]⟩)).1
      [("serial_number", JsonVal.str "SN1")]
      (by simp [get_state, isStateEnvelope, getField]),
   (validate_connection_serial_probe (FetchEvent.response ⟨200,
        JsonVal.obj [("humidity", JsonVal.num 55)]⟩)).1
      [("humidity", JsonVal.num 55)]
      (by simp [get_state, isStateEnvelope, getField]),
   (validate_connection_serial_probe (FetchEvent.response ⟨401,
        JsonVal.null⟩)).2 ("API returned " ++ toString 401)
      (by simp [get_state])⟩

/-- C6 as stated is false: on timeout the raised API error carries the fixed
message Request timeout, which is not the string timeout named by the
claim. -/
theorem timeout_message_counterexample :
    get_state FetchEvent.timeout =
      Except.error (PyExc.secomatAPIError "Request timeout") ∧
    "Request timeout" ≠ "timeout" :=
  ⟨rfl, by decide⟩

/-- C6 amended: whenever a call by get_state or send_command times out, it
fails with the API error carrying the fixed message Request timeout. -/
theorem timeout_message_fixed :
    get_state FetchEvent.timeout =
      Except.error (PyExc.secomatAPIError "Request timeout") ∧
    (∀ command args net, net (post_payload command args) = FetchEvent.timeout →
        send_command command args net =
          Except.error (PyExc.secomatAPIError "Request timeout")) := by
  refine ⟨rfl, ?_⟩
  intro command args net hev
  simp [send_command, hev]

/-- Closed instance of the amended C6: a timed-out POST raises the API error
with message Request timeout. -/
theorem timeout_message_fixed_witness :
    send_command "OFF" none (fun _ => FetchEvent.timeout) =
      Except.error (PyExc.secomatAPIError "Request timeout") :=
  timeout_message_fixed.2 "OFF" none (fun _ => FetchEvent.timeout) rfl

/-- C7: each named operation delegates to send_command with exactly its
command string and no further logic; the extra_dry option maps through the
inverted level table to level code 2; and the POST bodies built for these
calls have the shape with key command and key args, the latter defaulting to
the empty mapping. -/
theorem facade_command_bodies (net : JsonVal → FetchEvent) :
    turn_off net = send_command "OFF" none net ∧
    start_laundry_drying net = send_command "PRG_WASH_AUTO" none net ∧
    start_room_drying net = send_command "PRG_ROOM_ON" none net ∧
    stop_room_drying net = send_command "PRG_ROOM_OFF" none net ∧
    select_option_command "extra_dry" =
      some ("SET_TARGET_HUMIDITY", some [("level", JsonVal.num 2)]) ∧
    post_payload "OFF" none =
      JsonVal.obj [("command", JsonVal.str "OFF"), ("args", JsonVal.obj [])] ∧
    post_payload "SET_TARGET_HUMIDITY" (some [("level", JsonVal.num 2)]) =
      JsonVal.obj [("command", JsonVal.str "SET_TARGET_HUMIDITY"),
                   ("args", JsonVal.obj [("level", JsonVal.num 2)])] :=
  ⟨rfl, rfl, rfl, rfl, rfl, rfl, rfl⟩

/-- C8: closing is idempotent (a second close never invokes the resource
close again and leaves the state fixed), closing with no session ever opened
does nothing, and a client built around an externally supplied session never
closes it. -/
theorem close_idempotent_safe :
    (∀ st : APIState, api_close (api_close st).fst = ((api_close st).fst, false)) ∧
    api_close (api_init none) = (api_init none, false) ∧
    (∀ s : Session, api_close (api_init (some s)) = (api_init (some s), false)) := by
  refine ⟨?_, rfl, ?_⟩
  · intro st
    rcases st with ⟨sess, own⟩
    rcases sess with _ | ⟨⟨c⟩⟩
    · rfl
    · rcases own with _ | _ <;> rcases c with _ | _ <;> rfl
  · intro s
    rcases s with ⟨c⟩
    rcases c with _ | _ <;> rfl

/-- C10: a 200 response whose decoded body is not a mapping makes both
get_state and send_command fail with AttributeError, an exception distinct
from the API error class, so it escapes the single-error-kind
normalization. -/
theorem nonmapping_body_escapes (r : HttpResponse) (hs : r.status = 200)
    (hnb : ∀ fields, r.body ≠ JsonVal.obj fields) :
    get_state (FetchEvent.response r) =
      Except.error (PyExc.attributeError "object has no attribute get") ∧
    (∀ command args net, net (post_payload command args) = FetchEvent.response r →
        send_command command args net =
          Except.error (PyExc.attributeError "object has no attribute get")) ∧
    (∀ msg, PyExc.attributeError "object has no attribute get" ≠
        PyExc.secomatAPIError msg) := by
  refine ⟨?_, ?_, fun msg h => PyExc.noConfusion h⟩
  · cases hb : r.body with
    | obj fields => exact absurd hb (hnb fields)
    | null => simp [get_state, hs, hb]
    | bool b => simp [get_state, hs, hb]
    | num n => simp [get_state, hs, hb]
    | str s => simp [get_state, hs, hb]
    | arr elems => simp [get_state, hs, hb]
  · intro command args net hev
    cases hb : r.body with
    | obj fields => exact absurd hb (hnb fields)
    | null => simp [send_command, hev, hs, hb]
    | bool b => simp [send_command, hev, hs, hb]
    | num n => simp [send_command, hev, hs, hb]
    | str s => simp [send_command, hev, hs, hb]
    | arr elems => simp [send_command, hev, hs, hb]

/-- Closed instance of C10: a 200 response whose body is a JSON array makes
both calls fail with AttributeError. -/
theorem nonmapping_body_escapes_witness :
    get_state (FetchEvent.response ⟨200, JsonVal.arr [JsonVal.num 1]⟩) =
      Except.error (PyExc.attributeError "object has no attribute get") ∧
    send_command "OFF" none
        (fun _ => FetchEvent.response ⟨200, JsonVal.arr [JsonVal.num 1]⟩) =
      Except.error (PyExc.attributeError "object has no attribute get") :=
  ⟨(nonmapping_body_escapes ⟨200, JsonVal.arr [JsonVal.num 1]⟩ rfl
      (fun _ h => JsonVal.noConfusion h)).1,
   (nonmapping_body_escapes ⟨200, JsonVal.arr [JsonVal.num 1]⟩ rfl
      (fun _ h => JsonVal.noConfusion h)).2.1 "OFF" none _ rfl⟩
